import Mathlib

/-!
Verification of the Orbital asset-generation scripts.

The repository consists of four Blender Python scripts:
 - `src/Assets/ModelScripts/pbr_grid.py` — clears the scene, generates two
   11×11 grids of objects (spheres at y=5, cubes at y=-5) with PBR materials,
   and exports to `<cwd>/PBR_Grid.glb`;
 - `src/Assets/Models/pbr_sphere_gen.py` — clears the scene, generates one
   11×11 grid of spheres, and exports to `<cwd>/PBR_Spheres.glb`;
 - `src/Assets/Models/blender_gltf_export.py` — exports to the path obtained
   from the source document path by replacing `".blend"` with `".glb"`;
 - `src/Examples/SharedAssets/ModelScripts/blender_gltf_export.py` — exports
   `<cwd>/<basename>.glb`, and additionally in `GLTF_SEPARATE` form when the
   document base name starts with `"Test"`.

Modelling conventions: Python floats are modelled as exact rationals (ℚ); all
numeric literals appearing in the scripts (2.5, 5.5, 0.1 steps, …) stand for
the corresponding rational values. Python strings are modelled as Lean
`String`s, with Python string methods (`str.replace`, `str.startswith`)
re-implemented over the character list so that they evaluate inside the
kernel. The Blender host API (`bpy`) is an external collaborator: its scene
is modelled as the list of objects linked so far, and object/mesh/material
creation is modelled by the record of names, material scalars and positions
that the script assigns.
-/

namespace Orbital

/-- Semantics of Python `str.startswith(pre)`: `pre` is a prefix of the
string, decided over the character lists. -/
def startswith (s pre : String) : Bool := pre.data.isPrefixOf s.data

/-- Core loop of Python `str.replace(old, new)`: scan left to right; at each
position, if the pattern matches, emit the replacement and skip past the
match, otherwise keep the character. The fuel argument (instantiated with the
length of the scanned list) makes the recursion structural; one unit of fuel
is spent per consumed character, so the fuel never runs out on the intended
calls. -/
def replaceAux (pat rep : List Char) : Nat → List Char → List Char
  | 0, l => l
  | _, [] => []
  | fuel+1, c :: cs =>
    if pat.isPrefixOf (c :: cs) then
      rep ++ replaceAux pat rep fuel (cs.drop (pat.length - 1))
    else
      c :: replaceAux pat rep fuel cs

/-- Semantics of Python `s.replace(old, new)` for nonempty `old`: every
non-overlapping occurrence of `old` in `s` is replaced by `new`, scanning
left to right. -/
def str_replace (s old new : String) : String :=
  String.mk (replaceAux old.data new.data s.data.length s.data)

/-- One generated Blender object, as far as the scripts determine it: the
object name, the mesh data-block name, the material name, the two PBR
scalars set on the material, the location assigned to the object, and which
primitive was built into the mesh. -/
structure GeneratedObject where
  name : String
  meshName : String
  matName : String
  matRoughness : ℚ
  matMetallic : ℚ
  posX : ℚ
  posY : ℚ
  posZ : ℚ
  isSphere : Bool
deriving DecidableEq, Repr

/-- A Blender scene, modelled as the list of objects linked into it, in
linking order. -/
abbrev Scene := List GeneratedObject

namespace PbrGrid

/-- Setting `entries_per_axis = 11` of pbr_grid.py. -/
def entries_per_axis : ℕ := 11

/-- Setting `spacing = 2.5` of pbr_grid.py, the exact rational 5/2. -/
def spacing : ℚ := 5/2

/-- Per-cell name suffix: `idx_name = "x" + str(x) + "_z" + str(z)`. -/
def idx_name (x z : ℕ) : String := "x" ++ toString x ++ "_z" ++ toString z

/-- One iteration of the generation loop body of `axis(offset_y, spheres)` in
pbr_grid.py, at inner index `x` and outer index `z`: mesh and object are both
named `"Sphere_" + idx_name`, the material `"Material_" + idx_name`;
`roughness = 0.0 if z == 0 else 1.0 if z == entries_per_axis - 1 else z / 10`;
`metallic = 1.0 if x == 0 else 0.0 if x == entries_per_axis - 1 else 1.0 - x / 10`;
`location.x = (x - entries_per_axis / 2) * spacing + spacing / 2`, likewise
`location.z` from `z`, and `location.y = offset_y`; the mesh holds a UV
sphere when `spheres` is true and a cube otherwise. -/
def cell (offset_y : ℚ) (spheres : Bool) (x z : ℕ) : GeneratedObject where
  name := "Sphere_" ++ idx_name x z
  meshName := "Sphere_" ++ idx_name x z
  matName := "Material_" ++ idx_name x z
  matRoughness :=
    if z = 0 then 0 else if z = entries_per_axis - 1 then 1 else (z : ℚ) / 10
  matMetallic :=
    if x = 0 then 1 else if x = entries_per_axis - 1 then 0 else 1 - (x : ℚ) / 10
  posX := ((x : ℚ) - (entries_per_axis : ℚ) / 2) * spacing + spacing / 2
  posY := offset_y
  posZ := ((z : ℚ) - (entries_per_axis : ℚ) / 2) * spacing + spacing / 2
  isSphere := spheres

/-- The objects created by one call of `axis(offset_y, spheres)`, in creation
order: `for z in range(0, entries_per_axis): for x in range(0, entries_per_axis)`
— z is the outer loop, x the inner loop. -/
def axis (offset_y : ℚ) (spheres : Bool) : List GeneratedObject :=
  (List.range entries_per_axis).flatMap fun z =>
    (List.range entries_per_axis).map fun x => cell offset_y spheres x z

/-- Scene effect of `clear()`: select all, delete, and purge orphaned data —
the scene is left empty. -/
def clear (_s : Scene) : Scene := []

/-- Scene effect of the `bpy.context.collection.objects.link` calls made over
one generation pass: the created objects are appended in creation order. -/
def link (s : Scene) (objs : List GeneratedObject) : Scene := s ++ objs

/-- Scene effect of `main()` in pbr_grid.py: `clear()`, then
`axis(offset_y=5, spheres=True)`, then `axis(offset_y=-5, spheres=False)`. -/
def main_scene (s : Scene) : Scene :=
  link (link (clear s) (axis 5 true)) (axis (-5) false)

/-- Export path computed by `export()` in pbr_grid.py:
`os.getcwd() + "/PBR_Grid.glb"`. -/
def export_path (cwd : String) : String := cwd ++ "/PBR_Grid.glb"

end PbrGrid

namespace PbrSphereGen

/-- Setting `entries = 11` of pbr_sphere_gen.py. -/
def entries : ℕ := 11

/-- Setting `spacing = 2.5` of pbr_sphere_gen.py, the exact rational 5/2. -/
def spacing : ℚ := 5/2

/-- Per-cell name suffix of pbr_sphere_gen.py:
`idx_name = "x" + str(x) + "_z" + str(z)`. -/
def idx_name (x z : ℕ) : String := "x" ++ toString x ++ "_z" ++ toString z

/-- One iteration of the generation loop body of pbr_sphere_gen.py at inner
index `x`, outer index `z`. Identical to the pbr_grid.py cell except that the
script never assigns `location.y` (it keeps Blender's default 0) and always
builds a UV sphere. -/
def cell (x z : ℕ) : GeneratedObject where
  name := "Sphere_" ++ idx_name x z
  meshName := "Sphere_" ++ idx_name x z
  matName := "Material_" ++ idx_name x z
  matRoughness :=
    if z = 0 then 0 else if z = entries - 1 then 1 else (z : ℚ) / 10
  matMetallic :=
    if x = 0 then 1 else if x = entries - 1 then 0 else 1 - (x : ℚ) / 10
  posX := ((x : ℚ) - (entries : ℚ) / 2) * spacing + spacing / 2
  posY := 0
  posZ := ((z : ℚ) - (entries : ℚ) / 2) * spacing + spacing / 2
  isSphere := true

/-- The objects created by the top-level generation loop of
pbr_sphere_gen.py, in creation order (z outer, x inner). -/
def generated : List GeneratedObject :=
  (List.range entries).flatMap fun z =>
    (List.range entries).map fun x => cell x z

/-- Export path of pbr_sphere_gen.py: `cwd + "/PBR_Spheres.glb"` with
`cwd = os.getcwd()`. -/
def export_path (cwd : String) : String := cwd ++ "/PBR_Spheres.glb"

end PbrSphereGen

namespace ModelsExport

/-- Export path of src/Assets/Models/blender_gltf_export.py:
`bpy.data.filepath.replace(".blend", ".glb")`, where `bpy.data.filepath` is
the full path of the source document (the empty string for an unsaved
document). -/
def export_path (filepath : String) : String := str_replace filepath ".blend" ".glb"

end ModelsExport

namespace ExamplesExport

/-- The `export_gltf` flag of
src/Examples/SharedAssets/ModelScripts/blender_gltf_export.py: set exactly
when `filename_without_extension.startswith("Test")`. The argument is the
source document base name without extension, which the script derives from
`bpy.data.filepath` via `os.path.splitext(os.path.basename(...))[0]`. -/
def export_gltf (fname : String) : Bool := startswith fname "Test"

/-- The script's `output_file = output_dir + "/" + filename_without_extension
+ ".glb"`, where `output_dir = os.getcwd()`. -/
def output_file (output_dir fname : String) : String :=
  output_dir ++ "/" ++ fname ++ ".glb"

/-- The sequence of `bpy.ops.export_scene.gltf` calls made by one run of the
script, each as (export_format, filepath): first `export("GLB", output_file)`
unconditionally, then `export("GLTF_SEPARATE", output_file)` exactly when
`export_gltf` is set. -/
def exportCalls (output_dir fname : String) : List (String × String) :=
  [("GLB", output_file output_dir fname)] ++
    (if export_gltf fname then [("GLTF_SEPARATE", output_file output_dir fname)] else [])

/-- Modelled from the spec: the behaviour of the host (Blender) glTF export
operator, which is not part of this repository. Per the spec, a run "writes
one or two files per run to `<current_working_directory>/<name>.<ext>`, where
`ext ∈ {glb, gltf}`": the binary (`GLB`) form is written at the requested
`.glb` path, and the separate/text (`GLTF_SEPARATE`) form is written with the
`.gltf` extension in place of the requested `.glb` extension. -/
def hostOutputPath (gltf_format output_file_path : String) : String :=
  if gltf_format = "GLTF_SEPARATE" then
    String.mk (output_file_path.data.take (output_file_path.data.length - 4)) ++ ".gltf"
  else output_file_path

/-- The files produced by one run of the script: one per export call, at the
host's output path for that call. -/
def producedFiles (output_dir fname : String) : List String :=
  (exportCalls output_dir fname).map fun c => hostOutputPath c.1 c.2

end ExamplesExport

/-- The roughness rule as the spec states it (section 3, GridCell):
"`roughness(z)`: 0.0 when z = 0; 1.0 when z = N−1; otherwise z/10". -/
def spec_roughness (N z : ℕ) : ℚ :=
  if z = 0 then 0 else if z = N - 1 then 1 else (z : ℚ) / 10

/-- The metallic rule as the spec states it (section 3, GridCell):
"`metallic(x)`: 1.0 when x = 0; 0.0 when x = N−1; otherwise 1.0 − x/10". -/
def spec_metallic (N x : ℕ) : ℚ :=
  if x = 0 then 1 else if x = N - 1 then 0 else 1 - (x : ℚ) / 10

/-- The position rule as the spec states it (section 3, GridCell):
"`position`: `((x − N/2)·spacing + spacing/2, offset_y, (z − N/2)·spacing +
spacing/2)`". -/
def spec_position (N : ℕ) (s offset_y : ℚ) (x z : ℕ) : ℚ × ℚ × ℚ :=
  (((x : ℚ) - (N : ℚ) / 2) * s + s / 2, offset_y,
   ((z : ℚ) - (N : ℚ) / 2) * s + s / 2)

end Orbital

set_option maxRecDepth 10000
set_option synthInstance.maxSize 1024
set_option synthInstance.maxHeartbeats 1000000

namespace Orbital

/-- Dropping a suffix of known length from a concatenation of character
lists recovers the left part. -/
theorem take_append_length (l m : List Char) :
    (l ++ m).take ((l ++ m).length - m.length) = l := by
  simp [List.length_append]

/-- Appending to a common left part preserves distinctness of strings. -/
theorem append_left_ne (p : String) {s t : String} (h : s ≠ t) :
    p ++ s ≠ p ++ t := by
  intro hc
  apply h
  have hd := congrArg String.data hc
  rw [String.data_append, String.data_append] at hd
  exact String.ext (List.append_cancel_left hd)

/-- The host export model turns a requested `.glb` path into the matching
`.gltf` path when the separate/text format is requested. -/
theorem host_sep (a : String) :
    ExamplesExport.hostOutputPath "GLTF_SEPARATE" (a ++ ".glb") = a ++ ".gltf" := by
  unfold ExamplesExport.hostOutputPath
  rw [if_pos rfl]
  congr 1
  rw [String.data_append]
  calc String.mk ((a.data ++ ".glb".data).take ((a.data ++ ".glb".data).length - 4))
      = String.mk a.data := by
        rw [show (4:ℕ) = ".glb".data.length from rfl, take_append_length]
    _ = a := rfl

/-- The host export model leaves a `GLB`-format path unchanged. -/
theorem host_glb (p : String) :
    ExamplesExport.hostOutputPath "GLB" p = p := by
  unfold ExamplesExport.hostOutputPath
  rw [if_neg (by decide)]

/-- The export paths produced when the dual-export flag is set. -/
theorem producedFiles_pos (d fname : String) (h : startswith fname "Test" = true) :
    ExamplesExport.producedFiles d fname =
      [d ++ "/" ++ fname ++ ".glb", d ++ "/" ++ fname ++ ".gltf"] := by
  unfold ExamplesExport.producedFiles ExamplesExport.exportCalls
    ExamplesExport.export_gltf ExamplesExport.output_file
  rw [h, if_pos rfl]
  simp only [List.append_eq, List.cons_append, List.nil_append, List.map_cons, List.map_nil]
  rw [host_glb, host_sep]

/-- The export paths produced when the dual-export flag is not set. -/
theorem producedFiles_neg (d fname : String) (h : startswith fname "Test" = false) :
    ExamplesExport.producedFiles d fname = [d ++ "/" ++ fname ++ ".glb"] := by
  unfold ExamplesExport.producedFiles ExamplesExport.exportCalls
    ExamplesExport.export_gltf ExamplesExport.output_file
  rw [h, if_neg (by decide)]
  simp only [List.append_eq, List.cons_append, List.nil_append, List.map_cons, List.map_nil]
  rw [host_glb]

/-- Sums over a list built by `List.range` agree with the matching
`Finset.range` sum. -/
theorem list_sum_eq_finset (n : ℕ) (f : ℕ → ℚ) :
    ((List.range n).map f).sum = ∑ x in Finset.range n, f x := by
  induction n with
  | zero => simp
  | succ m ih =>
      rw [List.range_succ, List.map_append, List.sum_append,
        Finset.sum_range_succ, ih]
      simp

/-- Closed form for the sum of an affine function over `Finset.range`. -/
theorem sum_row (n : ℕ) (s c : ℚ) :
    (∑ x in Finset.range n, (((x : ℚ) - c) * s + s / 2)) =
      ((n : ℚ) * ((n : ℚ) - 1) / 2) * s - (n : ℚ) * c * s + (n : ℚ) * (s / 2) := by
  induction n with
  | zero => simp
  | succ m ih =>
      rw [Finset.sum_range_succ, ih]
      push_cast
      ring

/-- The row of grid abscissae centred at `n/2` sums to zero. -/
theorem sum_row_centered (n : ℕ) (s : ℚ) :
    (∑ x in Finset.range n, (((x : ℚ) - (n : ℚ) / 2) * s + s / 2)) = 0 := by
  rw [sum_row]
  ring

/-- Summing a projection over a flattened nested list equals the sum of the
per-block sums. -/
theorem sum_map_flatMap {α β : Type} (l : List α) (f : α → List β) (g : β → ℚ) :
    ((l.flatMap f).map g).sum = (l.map fun a => ((f a).map g).sum).sum := by
  induction l with
  | nil => rfl
  | cons a t ih => simp [ih]

end Orbital

namespace Orbital

/-- C1: in every run of the Examples exporter script, if the source document
base name starts with "Test" then exactly two export calls are made and two
files are produced, `<cwd>/<basename>.glb` and `<cwd>/<basename>.gltf`;
otherwise exactly one file, `<cwd>/<basename>.glb`, is produced. In
particular for base name "TestScene" the two produced paths end in
"TestScene.glb" and "TestScene.gltf". -/
theorem C1_export_branching (output_dir fname : String) :
    (startswith fname "Test" = true →
      (ExamplesExport.exportCalls output_dir fname).length = 2 ∧
      ExamplesExport.producedFiles output_dir fname =
        [output_dir ++ "/" ++ fname ++ ".glb",
         output_dir ++ "/" ++ fname ++ ".gltf"]) ∧
    (startswith fname "Test" = false →
      ExamplesExport.producedFiles output_dir fname =
        [output_dir ++ "/" ++ fname ++ ".glb"]) ∧
    ExamplesExport.producedFiles output_dir "TestScene" =
      [output_dir ++ "/TestScene.glb", output_dir ++ "/TestScene.gltf"] := by
  refine ⟨fun h => ⟨?_, producedFiles_pos output_dir fname h⟩,
    producedFiles_neg output_dir fname, ?_⟩
  · unfold ExamplesExport.exportCalls ExamplesExport.export_gltf
    rw [h, if_pos rfl]
    rfl
  · rw [producedFiles_pos output_dir "TestScene" (by decide),
      String.append_assoc, String.append_assoc, String.append_assoc, String.append_assoc]
    rfl

/-- C1 witness: the dual-export branch evaluated at cwd "/work" and base name
"TestScene". -/
theorem C1_export_branching_witness :
    startswith "TestScene" "Test" = true ∧
    (ExamplesExport.exportCalls "/work" "TestScene").length = 2 ∧
    ExamplesExport.producedFiles "/work" "TestScene" =
      ["/work/TestScene.glb", "/work/TestScene.gltf"] := by
  have h := (C1_export_branching "/work" "TestScene").1 (by decide)
  exact ⟨by decide, h.1, by rw [h.2]; decide⟩

end Orbital

namespace Orbital

/-- C2 counterexample: the Assets/Models exporter, run on a document saved at
"/home/Scene.blend" while the current working directory is "/work", computes
the output path "/home/Scene.glb" — the document's own directory — which is
not "/work/Scene.glb" and does not lie under "/work/". -/
theorem C2_counterexample :
    ModelsExport.export_path "/home/Scene.blend" = "/home/Scene.glb" ∧
    ModelsExport.export_path "/home/Scene.blend" ≠ "/work/Scene.glb" ∧
    startswith (ModelsExport.export_path "/home/Scene.blend") "/work/" = false := by
  decide

/-- C2 (amended): the two fixed-name exporters and the Examples exporter
write into the current working directory (`<cwd>/PBR_Grid.glb`,
`<cwd>/PBR_Spheres.glb`, `<cwd>/<basename>.glb`); the Assets/Models exporter
instead derives its path from the full document path by substring
replacement, writing next to the source document. -/
theorem C2_amended_export_paths (cwd fname filepath : String) :
    PbrGrid.export_path cwd = cwd ++ "/PBR_Grid.glb" ∧
    PbrSphereGen.export_path cwd = cwd ++ "/PBR_Spheres.glb" ∧
    ExamplesExport.output_file cwd fname = cwd ++ "/" ++ fname ++ ".glb" ∧
    ModelsExport.export_path filepath = str_replace filepath ".blend" ".glb" ∧
    ModelsExport.export_path "/home/Scene.blend" ≠ "/work/Scene.glb" := by
  refine ⟨rfl, rfl, rfl, rfl, by decide⟩

/-- C10: the Assets/Models exporter replaces every occurrence of ".blend"
anywhere in the full document path with ".glb": occurrences inside directory
components are rewritten too, repeated occurrences are all rewritten, and an
unsaved document (empty path) yields the empty output path. -/
theorem C10_replace_anywhere :
    ModelsExport.export_path "/projects/v1.blend.bak/Scene.blend" =
      "/projects/v1.glb.bak/Scene.glb" ∧
    ModelsExport.export_path "/d/x.blend.blend" = "/d/x.glb.glb" ∧
    ModelsExport.export_path "" = "" ∧
    ModelsExport.export_path "/a/b/Scene.blend" = "/a/b/Scene.glb" := by
  decide

end Orbital

namespace Orbital

/-- C3: for every grid cell (x, z) with coordinates below the axis entry
count, the cell's object is among the generated objects and its material
satisfies the spec's roughness and metallic rules, in both grid scripts. -/
theorem C3_material_rules (oy : ℚ) (sp : Bool) (x z : ℕ)
    (hx : x < PbrGrid.entries_per_axis) (hz : z < PbrGrid.entries_per_axis) :
    PbrGrid.cell oy sp x z ∈ PbrGrid.axis oy sp ∧
    (PbrGrid.cell oy sp x z).matRoughness = spec_roughness PbrGrid.entries_per_axis z ∧
    (PbrGrid.cell oy sp x z).matMetallic = spec_metallic PbrGrid.entries_per_axis x ∧
    (PbrSphereGen.cell x z).matRoughness = spec_roughness PbrSphereGen.entries z ∧
    (PbrSphereGen.cell x z).matMetallic = spec_metallic PbrSphereGen.entries x := by
  refine ⟨?_, rfl, rfl, rfl, rfl⟩
  unfold PbrGrid.axis
  rw [List.mem_flatMap]
  exact ⟨z, List.mem_range.mpr hz, List.mem_map.mpr ⟨x, List.mem_range.mpr hx, rfl⟩⟩

/-- C3 witness: the material rules evaluated at the cell (x, z) = (3, 0):
roughness 0 (z = 0) and metallic 1 - 3/10 = 7/10. -/
theorem C3_material_rules_witness :
    (3 < PbrGrid.entries_per_axis ∧ 0 < PbrGrid.entries_per_axis) ∧
    (PbrGrid.cell 0 true 3 0).matRoughness = spec_roughness PbrGrid.entries_per_axis 0 ∧
    (PbrGrid.cell 0 true 3 0).matRoughness = 0 ∧
    (PbrGrid.cell 0 true 3 0).matMetallic = 7/10 := by
  have h := C3_material_rules 0 true 3 0 (by decide) (by decide)
  refine ⟨⟨by decide, by decide⟩, h.2.1, ?_, ?_⟩
  · rw [h.2.1]; norm_num [spec_roughness]
  · rw [h.2.2.1]; norm_num [spec_metallic, PbrGrid.entries_per_axis]

/-- C4: every generated cell object sits at position
((x − N/2)·spacing + spacing/2, offset_y, (z − N/2)·spacing + spacing/2); in
particular, with N = 11 and spacing = 5/2, cell (0, 0) sits at
(-25/2, offset_y, -25/2) with roughness 0 and metallic 1. -/
theorem C4_position_rule (oy : ℚ) (sp : Bool) (x z : ℕ)
    (hx : x < PbrGrid.entries_per_axis) (hz : z < PbrGrid.entries_per_axis) :
    ((PbrGrid.cell oy sp x z).posX, (PbrGrid.cell oy sp x z).posY,
        (PbrGrid.cell oy sp x z).posZ) =
      spec_position PbrGrid.entries_per_axis PbrGrid.spacing oy x z ∧
    (PbrGrid.cell oy sp 0 0).posX = -(25/2 : ℚ) ∧
    (PbrGrid.cell oy sp 0 0).posZ = -(25/2 : ℚ) ∧
    (PbrGrid.cell oy sp 0 0).posY = oy ∧
    (PbrGrid.cell oy sp 0 0).matRoughness = 0 ∧
    (PbrGrid.cell oy sp 0 0).matMetallic = 1 := by
  refine ⟨rfl, ?_, ?_, rfl, rfl, rfl⟩ <;>
    norm_num [PbrGrid.cell, PbrGrid.spacing, PbrGrid.entries_per_axis]

/-- C4 witness: the position rule evaluated at offset_y = 5 and cell (0, 0). -/
theorem C4_position_rule_witness :
    (0 < PbrGrid.entries_per_axis) ∧
    (PbrGrid.cell 5 true 0 0).posX = -(25/2 : ℚ) ∧
    (PbrGrid.cell 5 true 0 0).posY = 5 := by
  have h := C4_position_rule 5 true 0 0 (by decide) (by decide)
  exact ⟨by decide, h.2.1, h.2.2.2.1⟩

end Orbital

namespace Orbital

/-- Sum of the x-positions over one pbr_grid.py generation pass. -/
theorem axis_posX_sum (oy : ℚ) (sp : Bool) :
    ((PbrGrid.axis oy sp).map fun o => o.posX).sum = 0 := by
  unfold PbrGrid.axis
  rw [sum_map_flatMap]
  have h : ∀ z : ℕ, ((((List.range PbrGrid.entries_per_axis).map
      fun x => PbrGrid.cell oy sp x z).map fun o => o.posX)).sum = 0 := by
    intro z
    rw [List.map_map,
      show ((fun o => o.posX) ∘ fun x => PbrGrid.cell oy sp x z)
        = fun x : ℕ => ((x : ℚ) - (PbrGrid.entries_per_axis : ℚ) / 2) * PbrGrid.spacing
            + PbrGrid.spacing / 2 from rfl,
      list_sum_eq_finset, sum_row_centered]
  simp only [h]
  simp

/-- Sum of the z-positions over one pbr_grid.py generation pass. -/
theorem axis_posZ_sum (oy : ℚ) (sp : Bool) :
    ((PbrGrid.axis oy sp).map fun o => o.posZ).sum = 0 := by
  unfold PbrGrid.axis
  rw [sum_map_flatMap]
  have h : ∀ z : ℕ, ((((List.range PbrGrid.entries_per_axis).map
      fun x => PbrGrid.cell oy sp x z).map fun o => o.posZ)).sum =
      (PbrGrid.entries_per_axis : ℚ) *
        (((z : ℚ) - (PbrGrid.entries_per_axis : ℚ) / 2) * PbrGrid.spacing
          + PbrGrid.spacing / 2) := by
    intro z
    rw [List.map_map,
      show ((fun o => o.posZ) ∘ fun x => PbrGrid.cell oy sp x z)
        = fun _ : ℕ => ((z : ℚ) - (PbrGrid.entries_per_axis : ℚ) / 2) * PbrGrid.spacing
            + PbrGrid.spacing / 2 from rfl,
      list_sum_eq_finset, Finset.sum_const, Finset.card_range, nsmul_eq_mul]
  simp only [h]
  rw [list_sum_eq_finset, ← Finset.mul_sum, sum_row_centered, mul_zero]

end Orbital

namespace Orbital

/-- Sum of the x-positions over the pbr_sphere_gen.py generation loop. -/
theorem generated_posX_sum : (PbrSphereGen.generated.map fun o => o.posX).sum = 0 := by
  unfold PbrSphereGen.generated
  rw [sum_map_flatMap]
  have h : ∀ z : ℕ, ((((List.range PbrSphereGen.entries).map
      fun x => PbrSphereGen.cell x z).map fun o => o.posX)).sum = 0 := by
    intro z
    rw [List.map_map,
      show ((fun o => o.posX) ∘ fun x => PbrSphereGen.cell x z)
        = fun x : ℕ => ((x : ℚ) - (PbrSphereGen.entries : ℚ) / 2) * PbrSphereGen.spacing
            + PbrSphereGen.spacing / 2 from rfl,
      list_sum_eq_finset, sum_row_centered]
  simp only [h]
  simp

/-- Sum of the z-positions over the pbr_sphere_gen.py generation loop. -/
theorem generated_posZ_sum : (PbrSphereGen.generated.map fun o => o.posZ).sum = 0 := by
  unfold PbrSphereGen.generated
  rw [sum_map_flatMap]
  have h : ∀ z : ℕ, ((((List.range PbrSphereGen.entries).map
      fun x => PbrSphereGen.cell x z).map fun o => o.posZ)).sum =
      (PbrSphereGen.entries : ℚ) *
        (((z : ℚ) - (PbrSphereGen.entries : ℚ) / 2) * PbrSphereGen.spacing
          + PbrSphereGen.spacing / 2) := by
    intro z
    rw [List.map_map,
      show ((fun o => o.posZ) ∘ fun x => PbrSphereGen.cell x z)
        = fun _ : ℕ => ((z : ℚ) - (PbrSphereGen.entries : ℚ) / 2) * PbrSphereGen.spacing
            + PbrSphereGen.spacing / 2 from rfl,
      list_sum_eq_finset, Finset.sum_const, Finset.card_range, nsmul_eq_mul]
  simp only [h]
  rw [list_sum_eq_finset, ← Finset.mul_sum, sum_row_centered, mul_zero]

/-- C5: over a full N×N generation pass, the x-coordinates of the generated
objects sum to 0 and so do the z-coordinates — the grid is centred on the
origin in those two axes — in both grid scripts. -/
theorem C5_grid_centered (oy : ℚ) (sp : Bool) :
    ((PbrGrid.axis oy sp).map fun o => o.posX).sum = 0 ∧
    ((PbrGrid.axis oy sp).map fun o => o.posZ).sum = 0 ∧
    (PbrSphereGen.generated.map fun o => o.posX).sum = 0 ∧
    (PbrSphereGen.generated.map fun o => o.posZ).sum = 0 :=
  ⟨axis_posX_sum oy sp, axis_posZ_sum oy sp, generated_posX_sum, generated_posZ_sum⟩

/-- C6: both generation loops visit the square grid with z as the outer loop
and x as the inner loop, so the generated object names, in creation order,
are exactly "Sphere_x{x}_z{z}" for z then x in raster order. -/
theorem C6_raster_order (oy : ℚ) (sp : Bool) :
    (PbrGrid.axis oy sp).map (fun o => o.name) =
      ((List.range PbrGrid.entries_per_axis).flatMap fun z =>
        (List.range PbrGrid.entries_per_axis).map fun x =>
          "Sphere_x" ++ toString x ++ "_z" ++ toString z) ∧
    PbrSphereGen.generated.map (fun o => o.name) =
      ((List.range PbrSphereGen.entries).flatMap fun z =>
        (List.range PbrSphereGen.entries).map fun x =>
          "Sphere_x" ++ toString x ++ "_z" ++ toString z) :=
  ⟨rfl, rfl⟩

end Orbital

namespace Orbital

/-- Distinct in-range cells receive distinct name suffixes, checked
exhaustively over the 11×11 grid. -/
theorem idx_name_distinct : ∀ x1 < PbrGrid.entries_per_axis,
    ∀ z1 < PbrGrid.entries_per_axis, ∀ x2 < PbrGrid.entries_per_axis,
    ∀ z2 < PbrGrid.entries_per_axis, (x1, z1) ≠ (x2, z2) →
    PbrGrid.idx_name x1 z1 ≠ PbrGrid.idx_name x2 z2 := by decide

/-- C7: within one generated grid, object names and material names carry the
"x{x}_z{z}" suffix and are unique: distinct in-range cells get distinct
object names and distinct material names. -/
theorem C7_name_uniqueness (oy : ℚ) (sp : Bool) (x1 z1 x2 z2 : ℕ)
    (hx1 : x1 < PbrGrid.entries_per_axis) (hz1 : z1 < PbrGrid.entries_per_axis)
    (hx2 : x2 < PbrGrid.entries_per_axis) (hz2 : z2 < PbrGrid.entries_per_axis)
    (hne : (x1, z1) ≠ (x2, z2)) :
    (PbrGrid.cell oy sp x1 z1).name = "Sphere_" ++ PbrGrid.idx_name x1 z1 ∧
    (PbrGrid.cell oy sp x1 z1).matName = "Material_" ++ PbrGrid.idx_name x1 z1 ∧
    (PbrGrid.cell oy sp x1 z1).name ≠ (PbrGrid.cell oy sp x2 z2).name ∧
    (PbrGrid.cell oy sp x1 z1).matName ≠ (PbrGrid.cell oy sp x2 z2).matName := by
  have h := idx_name_distinct x1 hx1 z1 hz1 x2 hx2 z2 hz2 hne
  exact ⟨rfl, rfl, append_left_ne "Sphere_" h, append_left_ne "Material_" h⟩

/-- C7 witness: cells (0, 0) and (1, 0) of the sphere pass receive different
object names and different material names. -/
theorem C7_name_uniqueness_witness :
    (PbrGrid.cell 5 true 0 0).name ≠ (PbrGrid.cell 5 true 1 0).name ∧
    (PbrGrid.cell 5 true 0 0).matName ≠ (PbrGrid.cell 5 true 1 0).matName := by
  have h := C7_name_uniqueness 5 true 0 0 1 0 (by decide) (by decide)
    (by decide) (by decide) (by decide)
  exact ⟨h.2.2.1, h.2.2.2⟩

/-- C8: the scene produced by pbr_grid.py's main sequence (clear, then the
two generation passes) is the same whether the sequence is run once or twice
in a row: regeneration is idempotent. -/
theorem C8_regen_idempotent (s : Scene) :
    PbrGrid.main_scene (PbrGrid.main_scene s) = PbrGrid.main_scene s := rfl

/-- C9: the two generation passes of pbr_grid.py assign identical object,
mesh and material names to every cell — the cube pass also uses the
"Sphere_"/"Material_" names — so names are not unique across the whole run:
the full scene contains the object name "Sphere_x0_z0" twice, and the list of
generated names has duplicates. -/
theorem C9_dual_grid_name_clash (x z : ℕ) (s : Scene) :
    (PbrGrid.cell 5 true x z).name = (PbrGrid.cell (-5) false x z).name ∧
    (PbrGrid.cell 5 true x z).meshName = (PbrGrid.cell (-5) false x z).meshName ∧
    (PbrGrid.cell 5 true x z).matName = (PbrGrid.cell (-5) false x z).matName ∧
    (PbrGrid.cell (-5) false x z).name = "Sphere_" ++ PbrGrid.idx_name x z ∧
    (PbrGrid.cell (-5) false x z).matName = "Material_" ++ PbrGrid.idx_name x z ∧
    (PbrGrid.cell (-5) false x z).isSphere = false ∧
    ((PbrGrid.main_scene s).map fun o => o.name).count "Sphere_x0_z0" = 2 ∧
    ¬ ((PbrGrid.main_scene s).map fun o => o.name).Nodup := by
  refine ⟨rfl, rfl, rfl, rfl, rfl, rfl, rfl, fun hnd => ?_⟩
  have h2 := List.nodup_iff_count_le_one.mp hnd "Sphere_x0_z0"
  rw [show ((PbrGrid.main_scene s).map fun o => o.name).count "Sphere_x0_z0" = 2 from rfl] at h2
  exact absurd h2 (by decide)

end Orbital
